import Mathlib

/-
Verification of the tcparse st.cmd generation layer (src/tcparse/stcmd.py).

The functions of stcmd.py (`get_pytmc`, `get_name`, the `template_motors`
construction, the ads-port selection, `render_pytmc` and the `--all-records`
branch of `render`) are embedded as executable Lean definitions.  Parts of
the repository that stcmd.py relies on but whose code is not in the tree
(the project loader and symbol index of tcparse/parse.py, and the external
pytmc pragma parser) are modelled from the design specification; each such
definition carries a doc comment saying so.

Machine strings are modelled as Lean strings; the character-level helpers
below implement the exact Python semantics used by the source (single
character `str.replace`, `str.split`-style splitting, truthiness of `or`).
-/

namespace Tcparse

/-- Replace every occurrence of the character `c` in the character list by
the replacement list `rep`.  This is Python `str.replace(c, rep)` restricted
to a one-character pattern, which is the only form stcmd.py uses
(`name.replace(' ', delim)` and `name.replace('_', delim)`). -/
def replaceCharList (c : Char) (rep : List Char) : List Char → List Char
  | [] => []
  | d :: ds => (if d = c then rep else [d]) ++ replaceCharList c rep ds

/-- Python `s.replace(c, rep)` for a one-character pattern `c`. -/
def pyReplaceChar (c : Char) (rep s : String) : String :=
  ⟨replaceCharList c rep.data s.data⟩

/-- Python truthiness of a string used as a condition: the empty string is
falsy, every other string is truthy. -/
def pyTruthy (s : String) : Bool :=
  s ≠ ""

/-- Python `opt or d` for an optional string `opt`: the default `d` is used
when `opt` is `None` and also when it is the (falsy) empty string.  This is
the exact combinator behind `get_pytmc(...) or '3'` in stcmd.py. -/
def pyOrString (v : Option String) (d : String) : String :=
  match v with
  | none => d
  | some s => if pyTruthy s then s else d

def isPySpace (c : Char) : Bool :=
  c = ' ' || c = '\t' || c = '\n' || c = '\r'

/-- Strip leading and trailing whitespace, Python `str.strip()`. -/
def stripChars (l : List Char) : List Char :=
  ((l.dropWhile isPySpace).reverse.dropWhile isPySpace).reverse

/-- Split a character list at every occurrence of `c` (Python `str.split(c)`),
accumulator-based. -/
def splitOnCharAux (c : Char) : List Char → List Char → List (List Char)
  | [], acc => [acc.reverse]
  | d :: ds, acc =>
    if d = c then acc.reverse :: splitOnCharAux c ds []
    else splitOnCharAux c ds (d :: acc)

def splitOnChar (c : Char) (s : String) : List (List Char) :=
  splitOnCharAux c s.data []

/-- Split a statement at its first colon into key and remainder; `none` when
no colon occurs. -/
def splitFirstColon : List Char → Option (List Char × List Char)
  | [] => none
  | d :: ds =>
    if d = ':' then some ([], ds)
    else (splitFirstColon ds).map (fun p => (d :: p.1, p.2))

/-- One parsed pragma line: the key and its tag value.  In pytmc the match
returned by `Configuration.get_config_lines` is a dictionary whose `tag`
entry is the value stcmd.py consumes; only that entry is modelled. -/
abbrev PragmaLine := String × String

/-- Parsed view of one metadata (pytmc) property block: the `key: value;`
statements in source order. -/
abbrev PragmaConfig := List PragmaLine

/-- Parse a single `key: value` statement; malformed statements (no colon,
or blank) yield `none` and are skipped. -/
def parseStatement (l : List Char) : Option PragmaLine :=
  match splitFirstColon (stripChars l) with
  | none => none
  | some (k, v) => some (⟨stripChars k⟩, ⟨stripChars v⟩)

/-- Modelled from the spec: the Pragma Parser (section 4.1; realised by the
external pytmc `Configuration` class, whose code is not in the tree).  The
block is a line-oriented sequence of `key: value;` statements; malformed or
empty statements are skipped rather than failing the whole parse. -/
def parsePragma (text : String) : PragmaConfig :=
  (splitOnChar ';' text).filterMap parseStatement

/-- All tag values recorded for `key` in one pragma block, in source order:
the pytmc `Configuration.get_config_lines(key)` interface that stcmd.py
consumes, projected onto the `tag` entry of each match. -/
def get_config_lines (c : PragmaConfig) (key : String) : List String :=
  (c.filter (fun ln => ln.1 = key)).map Prod.snd

/-- Scan the pragma blocks of a symbol in declaration order and return the
first tag found for `key`: the loop body of `get_pytmc` in stcmd.py
(`for config in pytmc_info[motor]: matches = config.get_config_lines(key);
if matches: return matches[0]['tag']`). -/
def firstConfigMatch : List PragmaConfig → String → Option String
  | [], _ => none
  | c :: rest, key =>
    match get_config_lines c key with
    | [] => firstConfigMatch rest key
    | t :: _ => some t

/-- Declarative form of the first-match rule: the head of the concatenation
of each block's matches for `key`, blocks taken in declaration order. -/
def first_pragma_match (cfgs : List PragmaConfig) (key : String) : Option String :=
  (cfgs.flatMap (fun c => get_config_lines c key)).head?

/-- The `get_pytmc(motor, nc_axis, key)` closure of stcmd.py, parameterised
by the pragma blocks gathered for the motor.  When the pytmc import failed
(`avail = false`, mirroring `pytmc is None`) it returns `None` before ever
looking at the blocks. -/
def get_pytmc (avail : Bool) (cfgs : List PragmaConfig) (key : String) :
    Option String :=
  if avail then firstConfigMatch cfgs key else none

/-- An NC axis configuration (AxisConfig of the data model): short name,
axis number and engineering units. -/
structure AxisConfig where
  short_name : String
  axis_number : Nat
  units : String
deriving DecidableEq

/-- The owning module of a symbol; only its ADS communication port is
consumed by stcmd.py (`motor.module.ads_port`). -/
structure Module where
  ads_port : Nat
deriving DecidableEq

/-- A property attached to a symbol: its name and the text of its first
value child (`prop.Value[0].text` in stcmd.py). -/
structure Property where
  name : String
  value : String
deriving DecidableEq

/-- A drive-virtual function-block symbol (Symbol_FB_DriveVirtual).  Its
`nc_axis` field is Modelled from the spec: the lazy axis-link lookup lives
in tcparse/parse.py, which is not in the tree; per the spec (section 4.3)
the accessor yields either the resolved axis or an explicit unresolved
result, here `Option AxisConfig`. -/
structure Symbol where
  name : String
  module : Module
  properties : List Property
  nc_axis : Option AxisConfig
deriving DecidableEq

/-- The pragma blocks of one motor as built by the `pytmc_info` dictionary
in stcmd.py: every property named `pytmc`, parsed in declaration order. -/
def pytmc_info (m : Symbol) : List PragmaConfig :=
  (m.properties.filter (fun p => p.name = "pytmc")).map (fun p => parsePragma p.value)

/-- The `get_name(motor, nc_axis)` closure of stcmd.py: an explicit `pv`
pragma is used verbatim with an empty prefix; otherwise the axis short name
with spaces and then underscores replaced by the delimiter, prefixed by
`pfx ++ delim` (`args.prefix + args.delim` in the source). -/
def get_name (avail : Bool) (cfgs : List PragmaConfig) (pfx delim : String)
    (nc_axis : AxisConfig) : String × String :=
  match get_pytmc avail cfgs "pv" with
  | some tmc_name => ("", tmc_name)
  | none =>
    let nm := pyReplaceChar ' ' delim nc_axis.short_name
    (pfx ++ delim, pyReplaceChar '_' delim nm)

/-- One entry of the `template_motors` list built by `render`. -/
structure MotorEntry where
  axisconfig : String
  name : String × String
  axis_no : Nat
  desc : String
  egu : String
  prec : String
  additional_fields : String
  amplifier_flags : String
deriving DecidableEq

/-- One element of the `template_motors` list comprehension in `render`:
every field exactly as built there, with `motor_name` standing for
`motor.name` and the Python `or` fallbacks for the pragma-backed fields. -/
def template_motor (avail : Bool) (cfgs : List PragmaConfig)
    (pfx delim motor_name : String) (nc_axis : AxisConfig) : MotorEntry :=
  { axisconfig := ""
    name := get_name avail cfgs pfx delim nc_axis
    axis_no := nc_axis.axis_number
    desc := motor_name ++ " / " ++ nc_axis.short_name
    egu := nc_axis.units
    prec := pyOrString (get_pytmc avail cfgs "precision") "3"
    additional_fields := pyOrString (get_pytmc avail cfgs "additional_fields") ""
    amplifier_flags := pyOrString (get_pytmc avail cfgs "amplifier_flags") "0" }

/-
The project tree.  Modelled from the spec: the Project Tree Loader and the
Symbol Index live in tcparse/parse.py, which is not in the tree.  Per the
spec (sections 3 and 4.3) a project owns a tree of nodes of a closed set of
kinds, and `find` is a depth-first pre-order traversal collecting every
descendant of the requested kind; nested sub-projects are separate Project
values with their own address and port scope, not part of the parent tree.
-/

mutual
/-- Modelled from the spec: one node of the parsed project tree, tagged by
kind (module, drive-virtual function-block symbol, property, other), with
its ordered children. -/
inductive Node where
  | module (nm : String) (children : Forest)
  | driveVirtual (sym : Symbol) (children : Forest)
  | property (prop : Property) (children : Forest)
  | other (children : Forest)
/-- Ordered sequence of sibling nodes. -/
inductive Forest where
  | nil
  | cons (n : Node) (f : Forest)
end

mutual
/-- Modelled from the spec: `project.find(Symbol_FB_DriveVirtual)` — the
depth-first pre-order traversal collecting every drive-virtual symbol of
the tree, a matching node included before its descendants. -/
def find_drive_virtual : Node → List Symbol
  | .module _ cs => find_drive_virtual_forest cs
  | .driveVirtual s cs => s :: find_drive_virtual_forest cs
  | .property _ cs => find_drive_virtual_forest cs
  | .other cs => find_drive_virtual_forest cs
/-- Traversal of a forest of siblings, left to right. -/
def find_drive_virtual_forest : Forest → List Symbol
  | .nil => []
  | .cons n f => find_drive_virtual n ++ find_drive_virtual_forest f
end

/-- Modelled from the spec: a loaded Project — target address, target IP,
its own node tree, and its independently loaded nested sub-projects. -/
inductive Project where
  | mk (ams_id target_ip : String) (tree : Node) (nested : List Project)

def Project.ams_id : Project → String
  | .mk a _ _ _ => a

def Project.target_ip : Project → String
  | .mk _ ip _ _ => ip

def Project.tree : Project → Node
  | .mk _ _ t _ => t

def Project.nested_projects : Project → List Project
  | .mk _ _ _ ns => ns

/-- The motor list of `render`
(`motors = [(motor, motor.nc_axis) for motor in project.find(...)]`),
restricted to the symbols whose axis link resolves.  Modelled from the
spec where the code is not in the tree: per sections 4.3 and 4.4 a symbol
whose axis link cannot be resolved is skipped with a warning and excluded
from generation; the pairing of each remaining symbol with its resolved
axis is the visible list comprehension of stcmd.py. -/
def resolve_motors (p : Project) : List (Symbol × AxisConfig) :=
  (find_drive_virtual p.tree).filterMap (fun s => s.nc_axis.map (fun a => (s, a)))

/-- The batch communication port of `render`:
`ads_port = motors[0][0].module.ads_port if motors else 851`. -/
def batch_ads_port (motors : List (Symbol × AxisConfig)) : Nat :=
  match motors with
  | [] => 851
  | (m, _) :: _ => m.module.ads_port

/-- The full `template_motors` list of `render`: one entry per resolved
motor, fields built by `template_motor`. -/
def template_motors (avail : Bool) (pfx delim : String) (p : Project) :
    List MotorEntry :=
  (resolve_motors p).map
    (fun ma => template_motor avail (pytmc_info ma.1) pfx delim ma.1.name ma.2)

/-
The record-generation branch of `render` (`--all-records`) and
`render_pytmc`.  The external collaborator is the black-box
`generate_records(path, dbd) -> text | LintFailure` of the spec; its result
for one nested project's tmc file is an input to the model.  `sys.exit(1)`
is modelled as the error case of an `Except Nat` result carrying the exit
status.
-/

/-- A lint failure reported by the record-generation collaborator
(`LinterError` raised by `pytmc_process`). -/
structure LintFailure where
  msg : String
deriving DecidableEq

/-- Result of running the record generator on one metadata file. -/
abbrev GenResult := Except LintFailure String

/-- The `render_pytmc` function of stcmd.py, as a function of the
collaborator's outcome: a lint failure makes the whole run exit with
status 1 (`except LinterError: sys.exit(1)`); otherwise the rendered
record text is returned. -/
def render_pytmc (gen : GenResult) : Except Nat String :=
  match gen with
  | .error _ => .error 1
  | .ok rendered => .ok rendered

/-- The nested-project loop of the `--all-records` branch of `render`:
each nested project's tmc file is rendered via `render_pytmc`; an empty
rendering is skipped (`continue`), a nonempty one contributes a db file;
an exit from `render_pytmc` aborts the whole run. -/
def process_nested_records (gens : List GenResult) : Except Nat (List String) :=
  match gens with
  | [] => .ok []
  | g :: rest =>
    match render_pytmc g with
    | .error code => .error code
    | .ok rendered =>
      match process_nested_records rest with
      | .error code => .error code
      | .ok dbs => .ok (if rendered = "" then dbs else rendered :: dbs)

/-- The `--all-records` gate of `render`: when the feature is requested and
the pytmc import is unavailable (`pytmc is None`), the run exits with
status 1 before any record file is produced; when it is available the
nested-project loop runs; when the feature is not requested no record
files are produced and the run continues. -/
def all_records_step (avail all_records : Bool) (gens : List GenResult) :
    Except Nat (List String) :=
  if all_records then
    if avail then process_nested_records gens else .error 1
  else .ok []

/-
Concrete inputs used by the witnesses and the counterexample.
-/

/-- The axis of the spec's fallback-name example: short name `X Axis_1`. -/
def axisX : AxisConfig := { short_name := "X Axis_1", axis_number := 1, units := "mm" }

/-- A second axis, linked by the nested project's symbol. -/
def axisQ : AxisConfig := { short_name := "Q Axis_2", axis_number := 2, units := "deg" }

/-- A symbol whose axis link resolves to `axisX`. -/
def symA : Symbol :=
  { name := "Main.M1", module := { ads_port := 852 }, properties := [], nc_axis := some axisX }

/-- A symbol whose axis link cannot be resolved. -/
def symB : Symbol :=
  { name := "Main.M2", module := { ads_port := 852 }, properties := [], nc_axis := none }

/-- A drive-virtual symbol living in a nested sub-project. -/
def symQ : Symbol :=
  { name := "Nested.M1", module := { ads_port := 853 }, properties := [], nc_axis := some axisQ }

/-- A project holding `symA` (resolvable axis) and `symB` (unresolvable). -/
def projSkip : Project :=
  .mk "5.18.79.34.1.1" "192.168.0.2"
    (.module "PLC1" (.cons (.driveVirtual symA .nil) (.cons (.driveVirtual symB .nil) .nil)))
    []

/-- A project with no drive-virtual symbol at all. -/
def projEmpty : Project :=
  .mk "5.18.79.34.1.1" "192.168.0.2" (.module "PLC0" .nil) []

/-- A nested sub-project holding `symQ`. -/
def projNested : Project :=
  .mk "5.18.79.35.1.1" "192.168.0.3" (.module "PLC2" (.cons (.driveVirtual symQ .nil) .nil)) []

/-- A parent project holding `symA` and declaring `projNested` as nested. -/
def projParent : Project :=
  .mk "5.18.79.34.1.1" "192.168.0.2"
    (.module "PLC1" (.cons (.driveVirtual symA .nil) .nil))
    [projNested]

/-- A pragma block with an explicit `pv` key. -/
def pvCfg : PragmaConfig := [("pv", "MY:PV")]

/-- A pragma block whose only `precision` line carries an empty tag. -/
def emptyPrecCfg : PragmaConfig := [("precision", "")]

/-- The collaborator outcomes of a run whose second nested project fails
linting. -/
def gensLint : List GenResult := [.ok "record(x) \x7b field(DESC) \x7d", .error ⟨"lint"⟩]

/-
Helper lemmas shared by the claim theorems.
-/

/-- The symbols referenced by the resolved motor list are exactly the found
symbols whose axis link resolves, in order. -/
theorem resolve_map_fst (syms : List Symbol) :
    (syms.filterMap (fun s => s.nc_axis.map (fun a => (s, a)))).map Prod.fst
      = syms.filter (fun s => s.nc_axis.isSome) := by
  induction syms with
  | nil => rfl
  | cons s rest ih =>
    cases h : s.nc_axis with
    | none => simp [List.filterMap_cons, List.filter_cons, h, ih]
    | some a => simp [List.filterMap_cons, List.filter_cons, h, ih]

/-- The block-scanning loop returns the head of the concatenated matches. -/
theorem firstConfigMatch_eq (cfgs : List PragmaConfig) (key : String) :
    firstConfigMatch cfgs key = first_pragma_match cfgs key := by
  induction cfgs with
  | nil => rfl
  | cons c rest ih =>
    cases h : get_config_lines c key with
    | nil =>
      simp [firstConfigMatch, first_pragma_match, List.flatMap_cons, h] at ih ⊢
      exact ih
    | cons t ts =>
      simp [firstConfigMatch, first_pragma_match, List.flatMap_cons, h]

/-- With the pytmc import available, `get_pytmc` computes the declarative
first-match rule. -/
theorem get_pytmc_true_eq (cfgs : List PragmaConfig) (key : String) :
    get_pytmc true cfgs key = first_pragma_match cfgs key :=
  firstConfigMatch_eq cfgs key

/-
Claim theorems.
-/

/-- Claim C1: with N drive-virtual symbols found and M of them having a
resolvable axis, motor resolution yields exactly M entries, each
referencing a distinct symbol, and every symbol with a resolvable axis is
among them — an unresolvable axis on one symbol does not prevent the
resolution of the others. -/
theorem resolve_motors_skips_unresolved (p : Project)
    (h : (find_drive_virtual p.tree).Nodup) :
    (resolve_motors p).length
        = ((find_drive_virtual p.tree).filter (fun s => s.nc_axis.isSome)).length
    ∧ ((resolve_motors p).map Prod.fst).Nodup
    ∧ ∀ s ∈ find_drive_virtual p.tree, s.nc_axis.isSome = true →
        s ∈ (resolve_motors p).map Prod.fst := by
  have hm : (resolve_motors p).map Prod.fst
      = (find_drive_virtual p.tree).filter (fun s => s.nc_axis.isSome) :=
    resolve_map_fst _
  refine ⟨?_, ?_, ?_⟩
  · have hl := congrArg List.length hm
    simpa using hl
  · rw [hm]
    exact h.filter _
  · intro s hs hsome
    rw [hm]
    exact List.mem_filter.mpr ⟨hs, hsome⟩

theorem resolve_motors_skips_unresolved_witness :
    (find_drive_virtual projSkip.tree).Nodup
    ∧ ((resolve_motors projSkip).length
        = ((find_drive_virtual projSkip.tree).filter (fun s => s.nc_axis.isSome)).length
      ∧ ((resolve_motors projSkip).map Prod.fst).Nodup
      ∧ ∀ s ∈ find_drive_virtual projSkip.tree, s.nc_axis.isSome = true →
          s ∈ (resolve_motors projSkip).map Prod.fst) :=
  ⟨by decide, resolve_motors_skips_unresolved projSkip (by decide)⟩

/-- Claim C2: without an explicit `pv` pragma, the resolved name is the
axis short name with spaces and then underscores replaced by the delimiter,
the prefix component being the configured prefix followed by the delimiter;
in particular axis `X Axis_1` with prefix `IOC` and delimiter `:` resolves
to the pair `("IOC:", "X:Axis:1")`. -/
theorem get_name_axis_fallback (cfgs : List PragmaConfig) (pfx delim : String)
    (ax : AxisConfig) (h : get_pytmc true cfgs "pv" = none) :
    get_name true cfgs pfx delim ax
        = (pfx ++ delim, pyReplaceChar '_' delim (pyReplaceChar ' ' delim ax.short_name))
    ∧ get_name true [] "IOC" ":" axisX = ("IOC:", "X:Axis:1") := by
  constructor
  · simp [get_name, h]
  · decide

theorem get_name_axis_fallback_witness :
    get_name true [] "IOC" ":" axisX
        = ("IOC" ++ ":", pyReplaceChar '_' ":" (pyReplaceChar ' ' ":" axisX.short_name))
    ∧ get_name true [] "IOC" ":" axisX = ("IOC:", "X:Axis:1") :=
  get_name_axis_fallback [] "IOC" ":" axisX rfl

/-- Claim C3: a symbol carrying an explicit `pv` pragma resolves to exactly
that tag value, with an empty prefix component, whatever the axis short
name, configured prefix and delimiter are. -/
theorem get_name_pv_verbatim (cfgs : List PragmaConfig) (pfx delim : String)
    (ax : AxisConfig) (t : String) (h : get_pytmc true cfgs "pv" = some t) :
    get_name true cfgs pfx delim ax = ("", t) := by
  simp [get_name, h]

theorem get_name_pv_verbatim_witness :
    get_name true [pvCfg] "AMI" "-" axisX = ("", "MY:PV") :=
  get_name_pv_verbatim [pvCfg] "AMI" "-" axisX "MY:PV" (by decide)

/-- Claim C4: the batch communication port is the ads_port of the first
resolved motor's owning module, and a project yielding no drive-virtual
motors gets an empty motor sequence and the fixed default port 851. -/
theorem ads_port_from_first_motor (p : Project) :
    (∀ m a rest, resolve_motors p = (m, a) :: rest →
        batch_ads_port (resolve_motors p) = m.module.ads_port)
    ∧ (find_drive_virtual p.tree = [] →
        resolve_motors p = [] ∧ batch_ads_port (resolve_motors p) = 851) := by
  constructor
  · intro m a rest h
    rw [h]
    rfl
  · intro h
    have hres : resolve_motors p = [] := by
      unfold resolve_motors
      rw [h]
      rfl
    refine ⟨hres, ?_⟩
    rw [hres]
    rfl

theorem ads_port_from_first_motor_witness :
    batch_ads_port (resolve_motors projSkip) = 852
    ∧ batch_ads_port (resolve_motors projEmpty) = 851 :=
  ⟨(ads_port_from_first_motor projSkip).1 symA axisX [] (by decide),
   ((ads_port_from_first_motor projEmpty).2 (by decide)).2⟩

/-- Claim C5, amended: precision, additional_fields and amplifier_flags
each equal the first pragma match for their key when that match is a
non-empty string; the fixed defaults `3`, empty and `0` apply when no
match is present or when the first match's tag is the empty string (Python
`or` treats an empty-string match like an absent one).  The concrete
example of the claim holds: the block `precision: 2; amplifier_flags: 5;`
parses to those two lines and a motor with only this block yields
prec `2`, amplifier_flags `5` and additional_fields empty. -/
theorem motor_fields_first_match_or_default (cfgs : List PragmaConfig)
    (pfx delim mname : String) (ax : AxisConfig) :
    ((template_motor true cfgs pfx delim mname ax).prec
        = pyOrString (first_pragma_match cfgs "precision") "3")
    ∧ ((template_motor true cfgs pfx delim mname ax).additional_fields
        = pyOrString (first_pragma_match cfgs "additional_fields") "")
    ∧ ((template_motor true cfgs pfx delim mname ax).amplifier_flags
        = pyOrString (first_pragma_match cfgs "amplifier_flags") "0")
    ∧ parsePragma "precision: 2; amplifier_flags: 5;"
        = [("precision", "2"), ("amplifier_flags", "5")]
    ∧ (template_motor true [parsePragma "precision: 2; amplifier_flags: 5;"]
          pfx delim mname ax).prec = "2"
    ∧ (template_motor true [parsePragma "precision: 2; amplifier_flags: 5;"]
          pfx delim mname ax).amplifier_flags = "5"
    ∧ (template_motor true [parsePragma "precision: 2; amplifier_flags: 5;"]
          pfx delim mname ax).additional_fields = "" := by
  refine ⟨?_, ?_, ?_, by decide, rfl, rfl, rfl⟩ <;>
    simp [template_motor, get_pytmc_true_eq]

/-- Claim C5 counterexample: a motor whose only pragma block carries a
`precision` line with an empty tag has a pragma match for `precision`, yet
the prec field is the default `3`, not that first match — the fallback is
not applied exactly when no match is present. -/
theorem motor_fields_empty_tag_cex :
    get_pytmc true [emptyPrecCfg] "precision" = some ""
    ∧ (template_motor true [emptyPrecCfg] "IOC" ":" "Main.M1" axisX).prec = "3"
    ∧ ¬ (template_motor true [emptyPrecCfg] "IOC" ":" "Main.M1" axisX).prec = "" :=
  ⟨rfl, rfl, by decide⟩

/-- Claim C6: pragma lookup scans a symbol's metadata blocks in declaration
order and returns the first tag found for the key — the head of the
concatenation, over the blocks in order, of each block's matches — so an
earlier block's value for a key always wins over any later block's. -/
theorem pragma_first_block_wins (cfgs : List PragmaConfig) (key : String) :
    get_pytmc true cfgs key
      = ((cfgs.flatMap (fun c => get_config_lines c key)).head?) :=
  get_pytmc_true_eq cfgs key

/-- Claim C7: the motor batch of a project only draws on the drive-virtual
symbols of the project's own tree, so (the trees being distinct per
project) a symbol of a nested sub-project never appears in the parent
project's motor batch; each project is resolved by its own
`resolve_motors` call. -/
theorem nested_symbols_not_in_parent_batch (p q : Project)
    (hq : q ∈ p.nested_projects)
    (hdisj : ∀ s ∈ find_drive_virtual q.tree, s ∉ find_drive_virtual p.tree) :
    (∀ ma ∈ resolve_motors p, ma.1 ∈ find_drive_virtual p.tree)
    ∧ ∀ s ∈ find_drive_virtual q.tree, ∀ a, (s, a) ∉ resolve_motors p := by
  have hsub : ∀ ma ∈ resolve_motors p, ma.1 ∈ find_drive_virtual p.tree := by
    intro ma hma
    have h1 : ma.1 ∈ (resolve_motors p).map Prod.fst := List.mem_map_of_mem _ hma
    have h2 : (resolve_motors p).map Prod.fst
        = (find_drive_virtual p.tree).filter (fun s => s.nc_axis.isSome) :=
      resolve_map_fst _
    rw [h2] at h1
    exact List.mem_of_mem_filter h1
  refine ⟨hsub, ?_⟩
  intro s hs a hmem
  exact hdisj s hs (hsub (s, a) hmem)

theorem nested_symbols_not_in_parent_batch_witness :
    (symQ, axisQ) ∉ resolve_motors projParent :=
  (nested_symbols_not_in_parent_batch projParent projNested
      (by simp [projParent, Project.nested_projects])
      (by decide)).2 symQ (by decide) axisQ

/-- Claim C8: a lint failure reported by the record-generation collaborator
for any nested project's metadata file makes the whole run exit with
status 1; the run never returns a (partial) record list. -/
theorem lint_failure_exits_nonzero (gens : List GenResult) (e : LintFailure)
    (h : Except.error e ∈ gens) :
    process_nested_records gens = Except.error 1
    ∧ all_records_step true true gens = Except.error 1 := by
  have hp : process_nested_records gens = Except.error 1 := by
    induction gens with
    | nil => cases h
    | cons g rest ih =>
      rcases List.mem_cons.mp h with hg | hg
      · rw [← hg]
        rfl
      · cases g with
        | error e2 => rfl
        | ok t =>
          simp [process_nested_records, render_pytmc, ih hg]
  exact ⟨hp, by simp [all_records_step, hp]⟩

theorem lint_failure_exits_nonzero_witness :
    process_nested_records gensLint = Except.error 1
    ∧ all_records_step true true gensLint = Except.error 1 :=
  lint_failure_exits_nonzero gensLint ⟨"lint"⟩ (List.Mem.tail _ (List.Mem.head _))

/-- Claim C9: requesting the all-records feature while the pytmc import is
unavailable makes the run exit with status 1; no record file list is
produced. -/
theorem all_records_without_pytmc_exits (gens : List GenResult) :
    all_records_step false true gens = Except.error 1 := rfl

/-- Claim C10: with the pytmc import unavailable, pragma lookup yields
nothing for every key, so every motor entry uses the axis-derived fallback
name and the defaults `3`, empty and `0`, whatever pragma blocks the
symbol actually carries. -/
theorem pytmc_unavailable_all_defaults (cfgs : List PragmaConfig)
    (pfx delim mname : String) (ax : AxisConfig) :
    template_motor false cfgs pfx delim mname ax =
      { axisconfig := ""
        name := (pfx ++ delim, pyReplaceChar '_' delim (pyReplaceChar ' ' delim ax.short_name))
        axis_no := ax.axis_number
        desc := mname ++ " / " ++ ax.short_name
        egu := ax.units
        prec := "3"
        additional_fields := ""
        amplifier_flags := "0" } := rfl

end Tcparse
